import Mathlib

/-!
Verification of the handler run pipeline and output encoder of
`tsfminference/inference_handler.py` (classes `InferenceHandler` and
`ForecastingInferenceHandler`, function `encode_dataframe`).

Shallow embedding conventions:
* A pandas `DataFrame` is a list of named, dtyped columns; a column's values
  are an ordered list.  `to_dict(orient="list")` becomes an ordered
  association list from column name to the column's value list.
* Python exceptions crossing a function boundary are modelled with `Except`:
  a function that may raise returns `Except Exn _`, raising is `.error`.
* `encode_dataframe` mutates its argument in place (the timestamp-column
  rewrite); the embedding returns the post-call frame next to the mapping.
* `datetime.datetime.now()` is passed in as an explicit `now` argument.
-/

/-- A calendar timestamp, standing in for `datetime.datetime` /
`pandas.Timestamp` (sub-second precision is not relevant to any claim). -/
structure Datetime where
  year : Nat
  month : Nat
  day : Nat
  hour : Nat
  minute : Nat
  second : Nat
deriving DecidableEq, Repr

def pad2 (n : Nat) : String :=
  if n < 10 then "0" ++ toString n else toString n

def pad4 (n : Nat) : String :=
  if n < 10 then "000" ++ toString n
  else if n < 100 then "00" ++ toString n
  else if n < 1000 then "0" ++ toString n
  else toString n

/-- `datetime.isoformat()` for a whole-second timestamp:
`YYYY-MM-DDTHH:MM:SS`. -/
def Datetime.isoformat (d : Datetime) : String :=
  pad4 d.year ++ "-" ++ pad2 d.month ++ "-" ++ pad2 d.day ++ "T" ++
    pad2 d.hour ++ ":" ++ pad2 d.minute ++ ":" ++ pad2 d.second

/-- A cell value of a data frame. -/
inductive Value where
  | vInt : Int → Value
  | vStr : String → Value
  | vDatetime : Datetime → Value
deriving DecidableEq, Repr

def Value.isStr : Value → Bool
  | .vStr _ => true
  | _ => false

def Value.isDatetime : Value → Bool
  | .vDatetime _ => true
  | _ => false

/-- The pandas dtype of a column, as far as
`pd.api.types.is_datetime64_any_dtype` can distinguish it. -/
inductive DType where
  | datetime64 : DType
  | int64 : DType
  | object : DType
deriving DecidableEq, Repr

/-- One column of a data frame: its name, its pandas dtype and its values in
row order.  (In pandas a column of dtype `datetime64` holds only timestamp
values; the embedding keeps dtype and values as separate fields and carries
that invariant as a hypothesis where a theorem needs it.) -/
structure Column where
  name : String
  dtype : DType
  values : List Value
deriving DecidableEq, Repr

/-- A pandas `DataFrame`: an ordered list of columns. -/
structure DataFrame where
  cols : List Column
deriving DecidableEq, Repr

/-- `result[s]`: the first column named `s`, `none` when the lookup would
raise a `KeyError`. -/
def DataFrame.getCol (df : DataFrame) (s : String) : Option Column :=
  df.cols.find? (fun c => c.name == s)

/-- `result[s] = series`: replace the column(s) named `s` in place, keeping
column order. -/
def DataFrame.setCol (df : DataFrame) (s : String) (c' : Column) : DataFrame :=
  ⟨df.cols.map (fun c => if c.name == s then c' else c)⟩

/-- `result.to_dict(orient="list")`: column name to value list, in column
order. -/
def DataFrame.to_dict (df : DataFrame) : List (String × List Value) :=
  df.cols.map (fun c => (c.name, c.values))

/-- `lambda x: x.isoformat()` applied to one cell.  On a `datetime64` column
— the only place `encode_dataframe` applies it — every cell is a timestamp,
so the passthrough branch is unreachable for frames representable in pandas. -/
def Value.isoformatV : Value → Value
  | .vDatetime d => .vStr d.isoformat
  | v => v

/-- `series.apply(lambda x: x.isoformat())`, assigned back to the column:
every value becomes its ISO-8601 string and a non-empty column's dtype
becomes `object`; an empty apply leaves the dtype untouched (no value claim
below depends on the empty-column dtype). -/
def Column.rewriteIso (c : Column) : Column :=
  { name := c.name,
    dtype := if c.values.isEmpty then c.dtype else .object,
    values := c.values.map Value.isoformatV }

/-- A raised Python exception, as far as the claims distinguish them. -/
inductive Exn where
  | runtimeError : String → Exn
  | keyError : String → Exn
  | other : String → Exn
deriving DecidableEq, Repr

/--
`encode_dataframe(result, timestamp_column=None)` from
`inference_handler.py`:

    if timestamp_column and pd.api.types.is_datetime64_any_dtype(result[timestamp_column]):
        result[timestamp_column] = result[timestamp_column].apply(lambda x: x.isoformat())
    return result.to_dict(orient="list")

`timestamp_column` is truthy only when it is a non-`None`, non-empty string;
only then is `result[timestamp_column]` looked up, which raises `KeyError`
for a missing column.  The returned pair is (the frame after the in-place
rewrite, the mapping); the `Except` layer models the possible `KeyError`.
-/
def encode_dataframe (result : DataFrame) (timestamp_column : Option String) :
    Except Exn (DataFrame × List (String × List Value)) :=
  match timestamp_column with
  | none => .ok (result, result.to_dict)
  | some s =>
    if s = "" then .ok (result, result.to_dict)
    else
      match result.getCol s with
      | none => .error (.keyError s)
      | some c =>
        if c.dtype = .datetime64 then
          let result' := result.setCol s c.rewriteIso
          .ok (result', result'.to_dict)
        else
          .ok (result, result.to_dict)

/-- Modelled from the spec: `PredictOutput` (declared in the collaborating
`inference_payloads` module, not part of the analysed sources) carries the
model id, the ISO-8601 completion timestamp, the results sequence and the
named data-point counts (the `**counts` splat). -/
structure PredictOutput where
  model_id : String
  created_at : String
  results : List (List (String × List Value))
  counts : List (String × Int)
deriving DecidableEq, Repr

/-- Modelled from the spec: the request schema (column roles), passed through
the dispatcher unchanged and never inspected by it. -/
structure BaseMetadataInput where
  timestamp_column : String
  id_columns : List String
  target_columns : List String
deriving DecidableEq, Repr

/-- Modelled from the spec: handler-kind-specific parameters, opaque to the
dispatcher and passed through unchanged. -/
structure BaseParameters where
  prediction_length : Option Nat
deriving DecidableEq, Repr

/-- Ghost instrumentation: the model-specific calls `run` makes, in order,
each recorded with the arguments it received at call time. -/
inductive Event where
  | callRun : DataFrame → Event
  | callEncode : DataFrame → Event
  | callCounts : DataFrame → Option DataFrame → Event
deriving DecidableEq, Repr

/-- An `InferenceHandler` instance: the `prepared` flag and `model_id` come
from `ServiceHandlerBase` (spec section 3); the abstract `_run` and
`_calculate_data_point_counts` supplied by a concrete model integration are
fields, each returning `Except` since model-specific code may raise. -/
structure InferenceHandler where
  model_id : String
  prepared : Bool
  runImpl : DataFrame → Option BaseMetadataInput → Option BaseParameters →
    Except Exn DataFrame
  countsImpl : DataFrame → Option DataFrame → Option BaseMetadataInput →
    Option BaseParameters → Except Exn (List (String × Int))

/--
`InferenceHandler.run(data, schema=None, parameters=None)`:

    if not self.prepared:
        return None, RuntimeError("Service wrapper has not yet been prepared; ...")
    try:
        result = self._run(data, schema=schema, parameters=parameters, **kwargs)
        encoded_result = encode_dataframe(result)
        counts = self._calculate_data_point_counts(data, output_data=result, ...)
        return PredictOutput(model_id=str(self.model_id),
                             created_at=datetime.datetime.now().isoformat(),
                             results=[encoded_result], **counts), None
    except Exception as e:
        return None, e

`encode_dataframe` is called with its default `timestamp_column=None`.  The
`result` passed on to `_calculate_data_point_counts` is the same object after
that call (aliasing of the in-place encoder; with `None` it is unchanged).
`run` assigns no attribute of `self`, so the handler value is read-only here.
The second component of the returned pair is the ghost call trace. -/
def InferenceHandler.run (h : InferenceHandler) (data : DataFrame)
    (schema : Option BaseMetadataInput) (parameters : Option BaseParameters)
    (now : Datetime) :
    (Option PredictOutput × Option Exn) × List Event :=
  if h.prepared = false then
    ((none, some (.runtimeError
      "Service wrapper has not yet been prepared; run `handler.prepare()` first.")), [])
  else
    match h.runImpl data schema parameters with
    | .error e => ((none, some e), [.callRun data])
    | .ok result =>
      match encode_dataframe result none with
      | .error e => ((none, some e), [.callRun data, .callEncode result])
      | .ok (result2, encoded_result) =>
        match h.countsImpl data (some result2) schema parameters with
        | .error e =>
          ((none, some e),
            [.callRun data, .callEncode result, .callCounts data (some result2)])
        | .ok counts =>
          ((some { model_id := h.model_id, created_at := now.isoformat,
                   results := [encoded_result], counts := counts }, none),
            [.callRun data, .callEncode result, .callCounts data (some result2)])

/-- A `ForecastingInferenceHandler` instance: `_run` and
`_calculate_data_point_counts` are re-declared abstract with the extra
`future_data` parameter. -/
structure ForecastingInferenceHandler where
  model_id : String
  prepared : Bool
  runImpl : DataFrame → Option DataFrame → Option BaseMetadataInput →
    Option BaseParameters → Except Exn DataFrame
  countsImpl : DataFrame → Option DataFrame → Option DataFrame →
    Option BaseMetadataInput → Option BaseParameters →
    Except Exn (List (String × Int))

/-- The view of a forecasting handler that `super().run` operates on:
`future_data` travels in `**kwargs` and is bound by keyword in the eventual
`_run(data, future_data=..., ...)` and
`_calculate_data_point_counts(data, future_data=..., output_data=..., ...)`
calls, i.e. the base pipeline runs with the implementations partially
applied at this `future_data`. -/
def ForecastingInferenceHandler.toBase (fh : ForecastingInferenceHandler)
    (future_data : Option DataFrame) : InferenceHandler :=
  { model_id := fh.model_id,
    prepared := fh.prepared,
    runImpl := fun d s p => fh.runImpl d future_data s p,
    countsImpl := fun d out s p => fh.countsImpl d future_data out s p }

/-- `ForecastingInferenceHandler.run(data, future_data=None, schema=None,
parameters=None)` is exactly
`super().run(data, future_data=future_data, schema=schema, parameters=parameters)`. -/
def ForecastingInferenceHandler.run (fh : ForecastingInferenceHandler)
    (data : DataFrame) (future_data : Option DataFrame)
    (schema : Option BaseMetadataInput) (parameters : Option BaseParameters)
    (now : Datetime) :
    (Option PredictOutput × Option Exn) × List Event :=
  InferenceHandler.run (fh.toBase future_data) data schema parameters now

/-! ### Concrete fixtures used by witnesses and counterexamples -/

def d0 : Datetime := ⟨2025, 6, 30, 12, 0, 0⟩

def now0 : Datetime := ⟨2026, 10, 12, 9, 30, 0⟩

/-- A small plain integer frame. -/
def dfA : DataFrame := ⟨[⟨"a", .int64, [.vInt 1, .vInt 2]⟩]⟩

/-- A one-row frame whose only column is datetime-typed. -/
def dfDT : DataFrame := ⟨[⟨"ts", .datetime64, [.vDatetime d0]⟩]⟩

/-- A zero-row frame with two columns. -/
def dfEmpty : DataFrame := ⟨[⟨"ts", .datetime64, []⟩, ⟨"y", .int64, []⟩]⟩

/-- A prepared handler whose model-specific code succeeds, echoing its
input frame. -/
def hOk : InferenceHandler :=
  { model_id := "m1", prepared := true,
    runImpl := fun d _ _ => .ok d,
    countsImpl := fun _ _ _ _ => .ok [("input_data_points", 2)] }

/-- The same handler before preparation. -/
def hUnprep : InferenceHandler :=
  { model_id := "m1", prepared := false,
    runImpl := fun d _ _ => .ok d,
    countsImpl := fun _ _ _ _ => .ok [("input_data_points", 2)] }

/-- A prepared handler whose `_run` raises. -/
def hFail : InferenceHandler :=
  { model_id := "m1", prepared := true,
    runImpl := fun _ _ _ => .error (.other "boom"),
    countsImpl := fun _ _ _ _ => .ok [] }

/-- A prepared handler whose `_run` returns the datetime frame `dfDT`. -/
def hDT : InferenceHandler :=
  { model_id := "m2", prepared := true,
    runImpl := fun _ _ _ => .ok dfDT,
    countsImpl := fun _ _ _ _ => .ok [("output_data_points", 1)] }

/-- A prepared forecasting handler; its counts record whether future data
was supplied, so that the witness can observe the forwarded argument. -/
def fhOk : ForecastingInferenceHandler :=
  { model_id := "f1", prepared := true,
    runImpl := fun d _ _ _ => .ok d,
    countsImpl := fun _ fut _ _ _ =>
      .ok [("future_data_points", if fut.isSome then 1 else 0)] }

/-! ### C1 -/

/-- C1: for every handler and input, `run` returns a pair with exactly one
component non-null — either `(some payload, none)` or `(none, some error)`,
never both populated and never both null. -/
theorem run_exactly_one_branch (h : InferenceHandler) (data : DataFrame)
    (schema : Option BaseMetadataInput) (parameters : Option BaseParameters)
    (now : Datetime) :
    ((h.run data schema parameters now).1.1 = none ∧
      ∃ e, (h.run data schema parameters now).1.2 = some e) ∨
    ((∃ po, (h.run data schema parameters now).1.1 = some po) ∧
      (h.run data schema parameters now).1.2 = none) := by
  unfold InferenceHandler.run
  rcases h.prepared with _ | _
  · simp
  · simp only [Bool.true_eq_false, if_false]
    rcases h.runImpl data schema parameters with e | result
    · simp
    · simp only [encode_dataframe]
      rcases h.countsImpl data (some result) schema parameters with e | counts
      · simp
      · simp

/-! ### C2 -/

/-- C2: a handler whose `prepared` flag is false yields the not-prepared
failure envelope, with an empty call trace: neither `_run`, nor the encoder,
nor `_calculate_data_point_counts` is invoked, whatever those
implementations are (the result is the same for every choice of them), and
the pure pipeline leaves the handler value untouched. -/
theorem run_unprepared (h : InferenceHandler) (data : DataFrame)
    (schema : Option BaseMetadataInput) (parameters : Option BaseParameters)
    (now : Datetime) (hp : h.prepared = false) :
    h.run data schema parameters now =
      ((none, some (.runtimeError
        "Service wrapper has not yet been prepared; run `handler.prepare()` first.")),
        []) := by
  unfold InferenceHandler.run
  rw [hp]
  rfl

/-- Witness for C2 on the concrete unprepared handler. -/
theorem run_unprepared_witness :
    hUnprep.run dfA none none now0 =
      ((none, some (.runtimeError
        "Service wrapper has not yet been prepared; run `handler.prepare()` first.")),
        []) :=
  run_unprepared hUnprep dfA none none now0 rfl

/-! ### C3 -/

/-- C3: for a prepared handler, an exception raised by the model-specific
`_run`, or by `_calculate_data_point_counts` after a successful `_run`, is
caught at the boundary of `run` and returned as `(none, that exception)`; no
`PredictOutput` is constructed on those paths, and — `run` being a total
function into the envelope type — no exception propagates to its caller. -/
theorem run_catches_exceptions (h : InferenceHandler) (data : DataFrame)
    (schema : Option BaseMetadataInput) (parameters : Option BaseParameters)
    (now : Datetime) (hp : h.prepared = true) :
    (∀ e, h.runImpl data schema parameters = .error e →
      (h.run data schema parameters now).1 = (none, some e)) ∧
    (∀ r e, h.runImpl data schema parameters = .ok r →
      h.countsImpl data (some r) schema parameters = .error e →
      (h.run data schema parameters now).1 = (none, some e)) := by
  constructor
  · intro e he
    unfold InferenceHandler.run
    rw [hp, he]
    rfl
  · intro r e hr hc
    unfold InferenceHandler.run
    rw [hp, hr]
    simp only [encode_dataframe]
    rw [hc]
    rfl

/-- Witness for C3: the concrete failing handler's error is returned, not
raised. -/
theorem run_catches_exceptions_witness :
    (hFail.run dfA none none now0).1 = (none, some (.other "boom")) :=
  (run_catches_exceptions hFail dfA none none now0 rfl).1 (.other "boom") rfl

/-! ### C6 -/

/-- C6: within one `run` invocation the model-specific calls happen in
strict sequence with a single attempt: `_run` first (and alone, when it
fails), then the encoder on its raw output, then
`_calculate_data_point_counts` — invoked only if `_run` succeeded, and
receiving the original `data` together with the raw result frame as
`output_data` (the encoder was called with `timestamp_column=None`, so the
frame it aliases is unrewritten). -/
theorem run_sequencing (h : InferenceHandler) (data : DataFrame)
    (schema : Option BaseMetadataInput) (parameters : Option BaseParameters)
    (now : Datetime) (hp : h.prepared = true) :
    (∀ e, h.runImpl data schema parameters = .error e →
      (h.run data schema parameters now).2 = [.callRun data]) ∧
    (∀ r, h.runImpl data schema parameters = .ok r →
      (h.run data schema parameters now).2 =
        [.callRun data, .callEncode r, .callCounts data (some r)]) := by
  constructor
  · intro e he
    unfold InferenceHandler.run
    rw [hp, he]
    rfl
  · intro r hr
    unfold InferenceHandler.run
    rw [hp, hr]
    simp only [encode_dataframe]
    rcases hc : h.countsImpl data (some r) schema parameters with e | c <;> rfl

/-- Witness for C6: the concrete echoing handler produces the full
three-call trace. -/
theorem run_sequencing_witness :
    (hOk.run dfA none none now0).2 =
      [.callRun dfA, .callEncode dfA, .callCounts dfA (some dfA)] :=
  (run_sequencing hOk dfA none none now0 rfl).2 dfA rfl

/-! ### C7 -/

/-- C7: every successful `run` returns a `PredictOutput` carrying the
handler's `model_id`, `created_at` equal to the ISO-8601 rendering of the
completion time, the counts returned by `_calculate_data_point_counts`, and
a results sequence of length exactly 1 (whatever the input, zero-row frames
included) containing the encoded result. -/
theorem run_success_shape (h : InferenceHandler) (data : DataFrame)
    (schema : Option BaseMetadataInput) (parameters : Option BaseParameters)
    (now : Datetime) (po : PredictOutput)
    (hpo : (h.run data schema parameters now).1.1 = some po) :
    po.model_id = h.model_id ∧ po.created_at = now.isoformat ∧
    po.results.length = 1 ∧
    ∃ r c, h.runImpl data schema parameters = .ok r ∧
      h.countsImpl data (some r) schema parameters = .ok c ∧
      po.results = [r.to_dict] ∧ po.counts = c := by
  unfold InferenceHandler.run at hpo
  rcases hprep : h.prepared with _ | _
  · rw [hprep] at hpo
    simp at hpo
  · rw [hprep] at hpo
    rcases hr : h.runImpl data schema parameters with e | r
    · rw [hr] at hpo
      simp at hpo
    · rw [hr] at hpo
      simp only [encode_dataframe] at hpo
      rcases hc : h.countsImpl data (some r) schema parameters with e | c
      · rw [hc] at hpo
        simp at hpo
      · rw [hc] at hpo
        simp only [Bool.true_eq_false, if_false, Option.some.injEq] at hpo
        subst hpo
        exact ⟨rfl, rfl, rfl, r, c, rfl, hc, rfl, rfl⟩

/-- Witness for C7 on a zero-row input frame: the results sequence still has
length exactly 1. -/
theorem run_success_shape_witness :
    ({ model_id := "m1", created_at := now0.isoformat,
       results := [dfEmpty.to_dict],
       counts := [("input_data_points", 2)] } : PredictOutput).results.length = 1 :=
  (run_success_shape hOk dfEmpty none none now0
    { model_id := "m1", created_at := now0.isoformat,
      results := [dfEmpty.to_dict],
      counts := [("input_data_points", 2)] } rfl).2.2.1

/-! ### C4 -/

/-- C4 (counterexample): a successful run of the concrete handler `hDT`,
whose result table has the datetime-typed column `ts`, places in
`PredictOutput.results` an encoded result whose `ts` value is still a
datetime — not an ISO-8601 string — because `run` calls the encoder without
a `timestamp_column`. -/
theorem run_results_not_iso_cex :
    ((hDT.run dfA none none now0).1.1.map PredictOutput.results) =
      some [[("ts", [Value.vDatetime d0])]] ∧
    Value.isStr (Value.vDatetime d0) = false :=
  ⟨rfl, rfl⟩

/-- C4 (amended): for every successful run, the encoded result placed in
`PredictOutput.results` is the column-oriented mapping of the raw result
table with every value unchanged (each column contributes its name and its
value list verbatim): `run` invokes `encode_dataframe` with its default
`timestamp_column=None`, so no datetime column is rewritten to ISO-8601
strings on this path. -/
theorem run_results_unencoded (h : InferenceHandler) (data : DataFrame)
    (schema : Option BaseMetadataInput) (parameters : Option BaseParameters)
    (now : Datetime) (r : DataFrame) (c : List (String × Int))
    (hp : h.prepared = true)
    (hr : h.runImpl data schema parameters = .ok r)
    (hc : h.countsImpl data (some r) schema parameters = .ok c) :
    (h.run data schema parameters now).1 =
      (some { model_id := h.model_id, created_at := now.isoformat,
              results := [r.to_dict], counts := c }, none) ∧
    ∀ col ∈ r.cols, (col.name, col.values) ∈ r.to_dict := by
  constructor
  · unfold InferenceHandler.run
    rw [hp, hr]
    simp only [encode_dataframe]
    rw [hc]
    rfl
  · intro col hcol
    unfold DataFrame.to_dict
    exact List.mem_map_of_mem _ hcol

/-- Witness for the amended C4 on the concrete handler `hDT`. -/
theorem run_results_unencoded_witness :
    (hDT.run dfA none none now0).1 =
      (some { model_id := "m2", created_at := now0.isoformat,
              results := [dfDT.to_dict],
              counts := [("output_data_points", 1)] }, none) :=
  (run_results_unencoded hDT dfA none none now0 dfDT
    [("output_data_points", 1)] rfl rfl rfl).1

/-! ### Helper lemmas about the encoder's building blocks -/

theorem Value.isoformatV_idem (v : Value) :
    v.isoformatV.isoformatV = v.isoformatV := by
  cases v <;> rfl

theorem Column.rewriteIso_name (c : Column) : c.rewriteIso.name = c.name := rfl

theorem Column.rewriteIso_idem (c : Column) :
    c.rewriteIso.rewriteIso = c.rewriteIso := by
  rcases c with ⟨n, dt, vs⟩
  cases vs with
  | nil => rfl
  | cons v vs =>
    unfold Column.rewriteIso
    simp [List.map_map, Function.comp_def, Value.isoformatV_idem]

theorem DataFrame.getCol_name (df : DataFrame) (s : String) (c : Column)
    (h : df.getCol s = some c) : c.name = s := by
  unfold DataFrame.getCol at h
  have hp := List.find?_some h
  simpa using hp

theorem find?_map_replace (l : List Column) (s : String) (c' : Column)
    (hn : c'.name = s)
    (hex : (l.find? fun c => c.name == s).isSome = true) :
    ((l.map fun c => if c.name == s then c' else c).find? fun c => c.name == s)
      = some c' := by
  induction l with
  | nil => simp at hex
  | cons a l ih =>
    by_cases ha : a.name = s
    · have hhd : (if a.name == s then c' else a) = c' := by simp [ha]
      rw [List.map_cons, hhd]
      exact List.find?_cons_of_pos _ (by simpa using hn)
    · have hhd : (if a.name == s then c' else a) = a := by simp [ha]
      rw [List.map_cons, hhd, List.find?_cons_of_neg _ (by simpa using ha)]
      apply ih
      rwa [List.find?_cons_of_neg _ (by simpa using ha)] at hex

theorem DataFrame.getCol_setCol_self (df : DataFrame) (s : String)
    (c c' : Column) (hg : df.getCol s = some c) (hn : c'.name = s) :
    (df.setCol s c').getCol s = some c' := by
  have hex : (df.cols.find? fun c => c.name == s).isSome = true := by
    unfold DataFrame.getCol at hg
    rw [hg]
    rfl
  unfold DataFrame.getCol DataFrame.setCol
  exact find?_map_replace df.cols s c' hn hex

theorem DataFrame.setCol_setCol (df : DataFrame) (s : String) (c' : Column) :
    (df.setCol s c').setCol s c' = df.setCol s c' := by
  unfold DataFrame.setCol
  simp only [List.map_map, DataFrame.mk.injEq]
  apply List.map_congr_left
  intro x _
  by_cases hx : x.name = s
  · simp [hx]
  · simp [hx]

theorem DataFrame.to_dict_setCol_eq (df : DataFrame) (s : String) (c' : Column) :
    ∀ p ∈ (df.setCol s c').to_dict, p.1 = s → p.2 = c'.values := by
  intro p hp hps
  unfold DataFrame.to_dict DataFrame.setCol at hp
  simp only [List.map_map, List.mem_map, Function.comp_def] at hp
  obtain ⟨c0, _, hpc⟩ := hp
  by_cases h0 : c0.name = s
  · rw [← hpc]
    simp [h0]
  · exfalso
    rw [← hpc] at hps
    rw [if_neg (show ¬((c0.name == s) = true) by simpa using h0)] at hps
    exact h0 hps

/-! ### C8 -/

/-- C8: the in-place encoder is stable under repetition — if
`encode_dataframe` succeeds on a frame, running it again with the same
`timestamp_column` on the frame it left behind returns the very same frame
and the very same mapping (the rewritten column is no longer
datetime-typed, or is empty and rewrites to itself, so the second
application performs no further change). -/
theorem encode_dataframe_idempotent (df df' : DataFrame) (ts : Option String)
    (m : List (String × List Value))
    (h : encode_dataframe df ts = .ok (df', m)) :
    encode_dataframe df' ts = .ok (df', m) := by
  cases ts with
  | none =>
    have h' : df = df' ∧ df.to_dict = m := by simpa [encode_dataframe] using h
    obtain ⟨rfl, rfl⟩ := h'
    rfl
  | some s =>
    by_cases hs : s = ""
    · subst hs
      have h' : df = df' ∧ df.to_dict = m := by simpa [encode_dataframe] using h
      obtain ⟨rfl, rfl⟩ := h'
      rfl
    · rcases hg : df.getCol s with _ | c
      · exfalso
        simp [encode_dataframe, hs, hg] at h
      · by_cases hd : c.dtype = .datetime64
        · have h' : df.setCol s c.rewriteIso = df' ∧
              (df.setCol s c.rewriteIso).to_dict = m := by
            simpa [encode_dataframe, hs, hg, hd] using h
          obtain ⟨rfl, rfl⟩ := h'
          have hname : c.name = s := DataFrame.getCol_name df s c hg
          have hget : (df.setCol s c.rewriteIso).getCol s = some c.rewriteIso :=
            DataFrame.getCol_setCol_self df s c c.rewriteIso hg
              (by rw [Column.rewriteIso_name, hname])
          by_cases he : c.values.isEmpty
          · have hd2 : c.rewriteIso.dtype = .datetime64 := by
              simp [Column.rewriteIso, he, hd]
            simp [encode_dataframe, hs, hget, hd2, Column.rewriteIso_idem,
              DataFrame.setCol_setCol]
          · have hd2 : c.rewriteIso.dtype = .object := by
              simp [Column.rewriteIso, he]
            simp [encode_dataframe, hs, hget, hd2]
        · have h' : df = df' ∧ df.to_dict = m := by
            simpa [encode_dataframe, hs, hg, hd] using h
          obtain ⟨rfl, rfl⟩ := h'
          simp [encode_dataframe, hs, hg, hd]

/-- Witness for C8: re-encoding the frame left behind by encoding `dfDT`
with its datetime column returns the same frame and mapping. -/
theorem encode_dataframe_idempotent_witness :
    encode_dataframe (DataFrame.mk [⟨"ts", .object, [.vStr d0.isoformat]⟩])
        (some "ts") =
      .ok (DataFrame.mk [⟨"ts", .object, [.vStr d0.isoformat]⟩],
        [("ts", [.vStr d0.isoformat])]) :=
  encode_dataframe_idempotent dfDT _ (some "ts") _ rfl

/-! ### C5 -/

/-- C5 (counterexample): `encode_dataframe` applied to the table `dfA`
(whose only column is `a`) with the given timestamp column `ts` does not
return a mapping at all — it raises a `KeyError` — refuting the claim as a
statement over every table and every `timestamp_column` argument. -/
theorem encode_dataframe_total_cex :
    encode_dataframe dfA (some "ts") = .error (.keyError "ts") := rfl

/-- C5 (amended): `encode_dataframe(table, ts)` returns the mapping sending
each column name to that column's ordered values whenever `ts` is `None`,
empty, or names an existing column (a given non-empty `ts` missing from the
table instead raises); when the given `ts` is non-empty and its column is
datetime-typed, that column's entry in the mapping is its values rewritten
element-wise, each datetime value becoming its ISO-8601 string form; empty
(zero-row) tables yield a mapping of empty sequences, and a non-datetime
timestamp column is passed through without rewrite. -/
theorem encode_dataframe_spec (df : DataFrame) (s : String) :
    (encode_dataframe df none = .ok (df, df.to_dict)) ∧
    (encode_dataframe df (some "") = .ok (df, df.to_dict)) ∧
    (∀ q ∈ df.to_dict, ∃ c' ∈ df.cols, q = (c'.name, c'.values)) ∧
    ((∀ c' ∈ df.cols, c'.values = []) →
      ∀ q ∈ df.to_dict, q.2 = ([] : List Value)) ∧
    (∀ c, s ≠ "" → df.getCol s = some c →
      (c.dtype ≠ .datetime64 →
        encode_dataframe df (some s) = .ok (df, df.to_dict)) ∧
      (c.dtype = .datetime64 →
        encode_dataframe df (some s) =
          .ok (df.setCol s c.rewriteIso, (df.setCol s c.rewriteIso).to_dict) ∧
        (∀ p ∈ (df.setCol s c.rewriteIso).to_dict, p.1 = s →
          p.2 = c.values.map Value.isoformatV) ∧
        (∀ (i : Nat) (d : Datetime), c.values[i]? = some (Value.vDatetime d) →
          (c.values.map Value.isoformatV)[i]? = some (Value.vStr d.isoformat)) ∧
        (c.values.all Value.isDatetime = true →
          (c.values.map Value.isoformatV).all Value.isStr = true))) := by
  refine ⟨rfl, rfl, ?_, ?_, ?_⟩
  · intro q hq
    unfold DataFrame.to_dict at hq
    simp only [List.mem_map] at hq
    obtain ⟨c', hc', hq'⟩ := hq
    exact ⟨c', hc', hq'.symm⟩
  · intro hall q hq
    unfold DataFrame.to_dict at hq
    simp only [List.mem_map] at hq
    obtain ⟨c', hc', hq'⟩ := hq
    rw [← hq']
    exact hall c' hc'
  · intro c hs hg
    constructor
    · intro hd
      simp [encode_dataframe, hs, hg, hd]
    · intro hd
      refine ⟨by simp [encode_dataframe, hs, hg, hd], ?_, ?_, ?_⟩
      · intro p hp hps
        have := DataFrame.to_dict_setCol_eq df s c.rewriteIso p hp hps
        rw [this]
        rfl
      · intro i d hi
        rw [List.getElem?_map, hi]
        rfl
      · intro hall
        simp only [List.all_eq_true] at hall ⊢
        intro v hv
        simp only [List.mem_map] at hv
        obtain ⟨v0, hv0, hv0e⟩ := hv
        have hdt := hall v0 hv0
        rw [← hv0e]
        cases v0 with
        | vInt n => simp [Value.isDatetime] at hdt
        | vStr t => simp [Value.isDatetime] at hdt
        | vDatetime dd => rfl

/-- Witness for the amended C5: a non-datetime timestamp column is passed
through without rewrite. -/
theorem encode_dataframe_spec_witness :
    encode_dataframe dfA (some "a") = .ok (dfA, dfA.to_dict) :=
  ((encode_dataframe_spec dfA "a").2.2.2.2 ⟨"a", .int64, [.vInt 1, .vInt 2]⟩
    (by decide) rfl).1 (by decide)

/-! ### C10 -/

/-- C10: `encode_dataframe` is not total over its `timestamp_column`
argument: on a concrete table it raises a lookup failure (`KeyError`) for a
given column name that is not a column of the table; moreover every error
it can produce arises that way — from a non-`None`, non-empty timestamp
column missing from the table — and no error is possible when the argument
is `None` or names an existing column. -/
theorem encode_dataframe_partiality :
    (encode_dataframe dfDT (some "nope") = .error (.keyError "nope")) ∧
    (∀ df ts e, encode_dataframe df ts = .error e →
      ∃ s, ts = some s ∧ s ≠ "" ∧ df.getCol s = none ∧ e = .keyError s) ∧
    (∀ df : DataFrame, (encode_dataframe df none).isOk = true) ∧
    (∀ (df : DataFrame) (s : String) (c : Column), df.getCol s = some c →
      (encode_dataframe df (some s)).isOk = true) := by
  refine ⟨rfl, ?_, fun df => rfl, ?_⟩
  · intro df ts e he
    cases ts with
    | none => exact absurd he (by simp [encode_dataframe])
    | some s =>
      refine ⟨s, rfl, ?_, ?_, ?_⟩
      · intro hs
        subst hs
        exact absurd he (by simp [encode_dataframe])
      · rcases hg : df.getCol s with _ | c
        · rfl
        · exfalso
          by_cases hs : s = ""
          · subst hs
            exact absurd he (by simp [encode_dataframe])
          · by_cases hd : c.dtype = .datetime64
            · exact absurd he (by simp [encode_dataframe, hs, hg, hd])
            · exact absurd he (by simp [encode_dataframe, hs, hg, hd])
      · by_cases hs : s = ""
        · subst hs
          exact absurd he (by simp [encode_dataframe])
        · rcases hg : df.getCol s with _ | c
          · have : encode_dataframe df (some s) = .error (.keyError s) := by
              simp [encode_dataframe, hs, hg]
            rw [this] at he
            injection he with he'
            exact he'.symm
          · by_cases hd : c.dtype = .datetime64
            · exact absurd he (by simp [encode_dataframe, hs, hg, hd])
            · exact absurd he (by simp [encode_dataframe, hs, hg, hd])
  · intro df s c hg
    by_cases hs : s = ""
    · subst hs
      rfl
    · by_cases hd : c.dtype = .datetime64
      · simp [encode_dataframe, hs, hg, hd, Except.isOk, Except.toBool]
      · simp [encode_dataframe, hs, hg, hd, Except.isOk, Except.toBool]

/-- Witness for C10: the error branch is unreachable on an existing column. -/
theorem encode_dataframe_partiality_witness :
    (encode_dataframe dfA (some "a")).isOk = true :=
  encode_dataframe_partiality.2.2.2 dfA "a" ⟨"a", .int64, [.vInt 1, .vInt 2]⟩ rfl

/-! ### C9 -/

/-- C9: `ForecastingInferenceHandler.run` forwards `future_data` unchanged
to both `_run` and `_calculate_data_point_counts` — for a prepared handler
the outcome is exactly the envelope built from those two implementations
applied at that very `future_data` — and, being stated for every
`future_data` including `none`, an absent future frame flows through the
ordinary success path rather than being treated as an error. -/
theorem forecasting_run_forwards (fh : ForecastingInferenceHandler)
    (data : DataFrame) (future_data : Option DataFrame)
    (schema : Option BaseMetadataInput) (parameters : Option BaseParameters)
    (now : Datetime) (hp : fh.prepared = true) :
    (∀ e, fh.runImpl data future_data schema parameters = .error e →
      (fh.run data future_data schema parameters now).1 = (none, some e)) ∧
    (∀ r c, fh.runImpl data future_data schema parameters = .ok r →
      fh.countsImpl data future_data (some r) schema parameters = .ok c →
      (fh.run data future_data schema parameters now).1 =
        (some { model_id := fh.model_id, created_at := now.isoformat,
                results := [r.to_dict], counts := c }, none)) := by
  constructor
  · intro e he
    unfold ForecastingInferenceHandler.run InferenceHandler.run
      ForecastingInferenceHandler.toBase
    simp only [hp]
    rw [he]
    rfl
  · intro r c hr hc
    unfold ForecastingInferenceHandler.run InferenceHandler.run
      ForecastingInferenceHandler.toBase
    simp only [hp]
    rw [hr]
    simp only [encode_dataframe]
    rw [hc]
    rfl

/-- Witness for C9: the concrete forecasting handler, given no future data,
runs to ordinary success, and its counts implementation observed the
forwarded `none`. -/
theorem forecasting_run_forwards_witness :
    (fhOk.run dfA none none none now0).1 =
      (some { model_id := "f1", created_at := now0.isoformat,
              results := [dfA.to_dict],
              counts := [("future_data_points", 0)] }, none) :=
  (forecasting_run_forwards fhOk dfA none none none now0 rfl).2 dfA
    [("future_data_points", 0)] rfl rfl
